import Mathlib

/-!
Verification of the job-discovery pipeline of the `life-systems` repository:
the scanning/deduplication orchestrator (`src/discovery/scanner.py`,
`src/discovery/models.py`), the two scoring engines
(`src/discovery/scorer.py` and `src/discovery/scorer/scorer.py`) and the
opportunity qualifier (`src/application/acl_opportunity_qualifier.py`).

Modelling conventions:
* Python strings are modelled as `List Char` (`Str`); `str.lower()` is
  `lowerChars` (ASCII case folding, which covers the repository's data),
  `str.strip()` is `trimChars`, `in` on strings is `containsSub`.
* Python floats are modelled as exact rationals `ℚ`; `round(x, 2)`
  (banker's rounding to two decimals) is `round2`.
* Python dicts carrying event payloads are modelled as structures whose
  optional fields are `Option`-valued; `dict.get(k, default)` becomes
  `Option.getD`.
-/

/-- Python `str` values, modelled as lists of characters. -/
abbrev Str := List Char

/-- Convert a Lean string literal to the `Str` model. -/
def str (s : String) : Str := s.data

/-- Python `str.lower()` (ASCII case folding). -/
def lowerChars (s : Str) : Str := s.map Char.toLower

/-- Whitespace test used by `trimChars` (Python `str.strip()`). -/
def isWs (c : Char) : Bool := c = ' ' || c = '\t' || c = '\n' || c = '\r'

/-- Python `str.strip()`: drop leading and trailing whitespace. -/
def trimChars (s : Str) : Str :=
  ((s.dropWhile isWs).reverse.dropWhile isWs).reverse

/-- Whether `needle` occurs as a contiguous substring of `hay`
(Python `needle in hay`). -/
def containsSub (needle hay : Str) : Bool :=
  (List.range (hay.length + 1)).any (fun i =>
    (hay.drop i).take needle.length == needle)

/-- Word character test mirroring the regex class `\w` (ASCII). -/
def isWordChar (c : Char) : Bool := c.isAlphanum || c = '_'

/-- Whether `k` matches `t` at offset `i` with `\b` word boundaries on
both sides, as in the compiled keyword patterns of
`src/discovery/scorer.py`. -/
def matchesWordAt (k t : Str) (i : Nat) : Bool :=
  ((t.drop i).take k.length == k) &&
  (match (t.take i).getLast? with
   | none => true
   | some c => !isWordChar c) &&
  (match (t.drop (i + k.length)).head? with
   | none => true
   | some c => !isWordChar c)

/-- Whether keyword `k` occurs in `t` delimited by word boundaries
(one alternative of the `\b(kw1|kw2|...)\b` regex). -/
def wordOccurs (k t : Str) : Bool :=
  (List.range (t.length + 1)).any (fun i => matchesWordAt k t i)

/-- Python `' '.join(xs)`. -/
def joinSpace : List Str → Str
  | [] => []
  | [x] => x
  | x :: y :: xs => x ++ ' ' :: joinSpace (y :: xs)

/-- Floor of a rational, as the scoring model's primitive
(`q.num / q.den`, euclidean integer division). -/
def qfloor (x : ℚ) : ℤ := x.num / (x.den : ℤ)

/-- Round a rational to the nearest integer, ties to even
(the rounding mode of Python's built-in `round`). -/
def rhe (x : ℚ) : ℤ :=
  let f := qfloor x
  if x - (f : ℚ) < 1/2 then f
  else if 1/2 < x - (f : ℚ) then f + 1
  else if f % 2 = 0 then f else f + 1

/-- Python `round(x, 2)`: round to two decimal places, ties to even. -/
def round2 (x : ℚ) : ℚ := ((rhe (100 * x) : ℤ) : ℚ) / 100

/-- Salary range of a listing (`SalaryRange` in `src/discovery/models.py`;
the `min`/`max`/`currency` keys of the `salary_range` dict in event
payloads). Absent keys are `none`. -/
structure SalaryRange where
  min : Option ℚ := none
  max : Option ℚ := none
  currency : Option Str := none
deriving DecidableEq, Repr

/-- Discovered job listing / `OpportunityDiscovered` payload
(`JobListing` in `src/discovery/models.py`; the payload dict consumed by
both scoring engines). The `discovered_at` timestamp is elided: no
modelled operation reads it. -/
structure Listing where
  listing_id : Str := []
  company : Str := []
  role : Str := []
  description : Str := []
  location : Str := []
  salary_range : Option SalaryRange := none
  tech_stack : List Str := []
  seniority : Str := []
  sources : List Str := []
  url : Str := []
deriving DecidableEq, Repr

namespace Scorer1

/-!
Embedding of the scoring engine of `src/discovery/scorer.py`
(`JobScorer`, pydantic models `ScoringWeights`, `HardFilters`,
`ScoringConfig`, `ScoreBreakdown`, `ScoredOpportunity`).
-/

/-- `ScoringWeights` of `src/discovery/scorer.py`. -/
structure ScoringWeights where
  remote_match : ℚ := 40/100
  ai_ml_relevance : ℚ := 30/100
  seniority_match : ℚ := 15/100
  salary_match : ℚ := 10/100
  fintech_bonus : ℚ := 5/100
deriving DecidableEq, Repr

/-- `ScoringConfig` of `src/discovery/scorer.py`: weights plus the
`HardFilters` fields (`require_remote`, `salary_floor_eur`). The keyword
lists are kept at their config defaults (below). -/
structure ScoringConfig where
  weights : ScoringWeights := {}
  require_remote : Bool := true
  salary_floor_eur : Option ℚ := some 120000
deriving DecidableEq, Repr

/-- Default `ai_ml_keywords` of `ScoringConfig`. -/
def ai_ml_keywords : List Str :=
  [str (r"ai"), str (r"ml"), str (r"machine learning"),
   str (r"artificial intelligence"), str (r"llm"), str (r"nlp"),
   str (r"deep learning"), str (r"neural network"), str (r"transformer"),
   str (r"gpt"), str (r"bert"), str (r"rag"), str (r"retrieval"),
   str (r"embedding"), str (r"vector"), str (r"langchain"),
   str (r"openai"), str (r"anthropic"), str (r"agent"),
   str (r"automation"), str (r"generative"), str (r"computer vision"),
   str (r"reinforcement learning")]

/-- Default `fintech_keywords` of `ScoringConfig`. -/
def fintech_keywords : List Str :=
  [str (r"fintech"), str (r"banking"), str (r"financial"), str (r"credit"),
   str (r"payment"), str (r"trading"), str (r"risk"), str (r"compliance"),
   str (r"fraud"), str (r"kyc"), str (r"aml"), str (r"basel"),
   str (r"dodd-frank"), str (r"hedge fund"), str (r"investment"),
   str (r"securities"), str (r"blockchain"), str (r"crypto")]

/-- Per-currency EUR conversion table of `src/discovery/scorer.py`
(`eur_conversion`), with the `.get(currency, 1.0)` default. -/
def eurRate (c : Str) : ℚ :=
  if c = str (r"EUR") then 1
  else if c = str (r"USD") then 92/100
  else if c = str (r"GBP") then 115/100
  else if c = str (r"PLN") then 23/100
  else 1

/-- `ScoreBreakdown` of `src/discovery/scorer.py`. -/
structure ScoreBreakdown where
  remote_match : ℚ
  ai_ml_relevance : ℚ
  seniority_match : ℚ
  salary_match : ℚ
  fintech_bonus : ℚ
deriving DecidableEq, Repr

/-- `ScoredOpportunity` of `src/discovery/scorer.py`. -/
structure ScoredOpportunity where
  listing_id : Str
  score : ℚ
  breakdown : ScoreBreakdown
  weights : ScoringWeights
  rejected : Bool
  rejection_reason : Option Str
deriving DecidableEq, Repr

/-- Number of distinct keywords of `kws` occurring (word-bounded) in
`text`: the `len(set(pattern.findall(text)))` of the keyword scorers. -/
def uniqueWordMatches (kws : List Str) (text : Str) : Nat :=
  (kws.filter (fun k => wordOccurs k text)).length

/-- `JobScorer._score_remote`. -/
def score_remote (p : Listing) : ℚ :=
  let location := lowerChars p.location
  if location = str (r"remote") then 100
  else if location = str (r"hybrid") then 30
  else 0

/-- Text searched by `JobScorer._score_ai_ml_relevance`:
`' '.join([role, description, ' '.join(tech_stack)]).lower()`. -/
def aiMlText (p : Listing) : Str :=
  lowerChars (joinSpace [p.role, p.description, joinSpace p.tech_stack])

/-- `JobScorer._score_ai_ml_relevance`: 10 points per unique keyword,
capped at 100. -/
def score_ai_ml_relevance (p : Listing) : ℚ :=
  ((min 100 (uniqueWordMatches ai_ml_keywords (aiMlText p) * 10) : ℕ) : ℚ)

/-- `JobScorer._score_seniority`. -/
def score_seniority (p : Listing) : ℚ :=
  let s := lowerChars p.seniority
  if s = str (r"principal") ∨ s = str (r"staff") then 100
  else if s = str (r"senior") then 90
  else if s = str (r"mid") then 50
  else if s = str (r"junior") then 20
  else
    let role := lowerChars p.role
    if containsSub (str (r"principal")) role ∨ containsSub (str (r"staff")) role then 100
    else if containsSub (str (r"senior")) role ∨ containsSub (str (r"lead")) role then 90
    else 60

/-- `JobScorer._score_salary`: step function on the max salary converted
to EUR; 60 (neutral) when no salary data is present. -/
def score_salary (p : Listing) : ℚ :=
  match p.salary_range with
  | none => 60
  | some sr =>
    let maxEur := (sr.max.getD 0) * eurRate (sr.currency.getD (str (r"EUR")))
    if maxEur ≥ 150000 then 100
    else if maxEur > 130000 then 85
    else if maxEur ≥ 120000 then 70
    else 50

/-- Text searched by `JobScorer._score_fintech_bonus`:
`' '.join([company, role, description]).lower()`. -/
def fintechText (p : Listing) : Str :=
  lowerChars (joinSpace [p.company, p.role, p.description])

/-- `JobScorer._score_fintech_bonus`: 5 points per unique keyword,
capped at 20. -/
def score_fintech_bonus (p : Listing) : ℚ :=
  ((min 20 (uniqueWordMatches fintech_keywords (fintechText p) * 5) : ℕ) : ℚ)

/-- Remote hard filter condition of `JobScorer.score_listing`:
`require_remote` enabled and `payload.get('location', '').lower() != 'remote'`. -/
def remoteFilterFires (cfg : ScoringConfig) (p : Listing) : Bool :=
  cfg.require_remote && !(lowerChars p.location == str (r"remote"))

/-- Salary-floor hard filter condition of `JobScorer.score_listing`:
salary data present, a non-zero floor configured, and the EUR-converted
minimum salary positive but below the floor. -/
def salaryFloorFires (cfg : ScoringConfig) (p : Listing) : Bool :=
  match p.salary_range, cfg.salary_floor_eur with
  | some sr, some floor =>
    if floor = 0 then false
    else
      let minEur := (sr.min.getD 0) * eurRate (sr.currency.getD (str (r"EUR")))
      decide (0 < minEur ∧ minEur < floor)
  | _, _ => false

/-- `JobScorer.score_listing` of `src/discovery/scorer.py`: hard filters
first (remote, then salary floor), then the weighted combination of the
five dimension scores; the published total and sub-scores are rounded to
two decimals. Rejection reason strings keep their fixed text; the
interpolated amounts of the salary reason are elided. -/
def score_listing (cfg : ScoringConfig) (p : Listing) : ScoredOpportunity :=
  if remoteFilterFires cfg p then
    { listing_id := p.listing_id
      score := 0
      breakdown := ⟨0, 0, 0, 0, 0⟩
      weights := cfg.weights
      rejected := true
      rejection_reason := some (str (r"Not remote")) }
  else if salaryFloorFires cfg p then
    { listing_id := p.listing_id
      score := 0
      breakdown := ⟨100, 0, 0, 0, 0⟩
      weights := cfg.weights
      rejected := true
      rejection_reason := some (str (r"Salary below floor")) }
  else
    let r := score_remote p
    let a := score_ai_ml_relevance p
    let sen := score_seniority p
    let sal := score_salary p
    let f := score_fintech_bonus p
    let total := r * cfg.weights.remote_match + a * cfg.weights.ai_ml_relevance +
      sen * cfg.weights.seniority_match + sal * cfg.weights.salary_match +
      f * cfg.weights.fintech_bonus
    { listing_id := p.listing_id
      score := round2 total
      breakdown := ⟨round2 r, round2 a, round2 sen, round2 sal, round2 f⟩
      weights := cfg.weights
      rejected := false
      rejection_reason := none }

end Scorer1

namespace Scorer2

/-!
Embedding of the scoring engine of `src/discovery/scorer/scorer.py`
(`JobScorer`, pydantic models `ScoringWeights`, `ScoreBreakdown`,
`ScoredJob`).
-/

/-- `ScoringWeights` of `src/discovery/scorer/scorer.py`. -/
structure ScoringWeights where
  remote_match : ℚ := 35/100
  ai_ml_relevance : ℚ := 30/100
  seniority_match : ℚ := 20/100
  salary_match : ℚ := 10/100
  fintech_bonus : ℚ := 5/100
deriving DecidableEq, Repr

/-- `ScoringWeights.validate_sum`: the code sums all five weights,
`fintech_bonus` included, and compares to 1.0 with 0.01 tolerance. -/
def validate_sum (w : ScoringWeights) : Bool :=
  let base_sum := w.remote_match + w.ai_ml_relevance + w.seniority_match +
    w.salary_match + w.fintech_bonus
  decide (|base_sum - 1| < 1/100)

/-- Sum check the specification describes for `validate_sum`: modelled
from the spec's words, the primary dimension weights only, excluding the
bonus dimension. Kept separate so the code's behaviour can be compared
against it. -/
def validateSumPrimarySpec (w : ScoringWeights) : Bool :=
  decide (|w.remote_match + w.ai_ml_relevance + w.seniority_match +
    w.salary_match - 1| < 1/100)

/-- High-tier `AI_ML_KEYWORDS` of `src/discovery/scorer/scorer.py`. -/
def aiHigh : List Str :=
  [str (r"llm"), str (r"large language model"), str (r"gpt"),
   str (r"claude"), str (r"openai"), str (r"machine learning engineer"),
   str (r"ml engineer"), str (r"ai engineer"), str (r"deep learning"),
   str (r"neural network"), str (r"transformer"), str (r"rag"),
   str (r"retrieval augmented generation"), str (r"langchain"),
   str (r"llama"), str (r"bert"), str (r"embeddings"), str (r"mlops"),
   str (r"model serving"), str (r"ml platform")]

/-- Medium-tier `AI_ML_KEYWORDS`. -/
def aiMedium : List Str :=
  [str (r"machine learning"), str (r"ai"), str (r"artificial intelligence"),
   str (r"nlp"), str (r"natural language processing"),
   str (r"computer vision"), str (r"data science"), str (r"pytorch"),
   str (r"tensorflow"), str (r"scikit-learn"), str (r"hugging face"),
   str (r"ml"), str (r"model training"), str (r"inference")]

/-- Low-tier `AI_ML_KEYWORDS`. -/
def aiLow : List Str :=
  [str (r"python"), str (r"statistics"), str (r"data"), str (r"analytics"),
   str (r"algorithm"), str (r"optimization"), str (r"prediction")]

/-- `FINTECH_KEYWORDS` of `src/discovery/scorer/scorer.py`. -/
def fintechKeywords : List Str :=
  [str (r"bank"), str (r"banking"), str (r"fintech"),
   str (r"financial services"), str (r"payment"), str (r"trading"),
   str (r"credit"), str (r"lending"), str (r"insurance"),
   str (r"fraud detection"), str (r"aml"), str (r"kyc"),
   str (r"compliance"), str (r"deutsche bank"), str (r"jpmorgan"),
   str (r"goldman sachs"), str (r"credit suisse"), str (r"visa"),
   str (r"mastercard"), str (r"paypal"), str (r"stripe"), str (r"square")]

/-- `exchange_rates` of `src/discovery/scorer/scorer.py`, with the
`.get(currency, 1.0)` default. -/
def eurRate (c : Str) : ℚ :=
  if c = str (r"EUR") then 1
  else if c = str (r"USD") then 93/100
  else if c = str (r"GBP") then 117/100
  else if c = str (r"PLN") then 23/100
  else 1

/-- `ScoreBreakdown` of `src/discovery/scorer/scorer.py`. -/
structure ScoreBreakdown where
  remote_match : ℚ
  ai_ml_relevance : ℚ
  seniority_match : ℚ
  salary_match : ℚ
  fintech_bonus : ℚ
deriving DecidableEq, Repr

/-- `ScoredJob` of `src/discovery/scorer/scorer.py`. -/
structure ScoredJob where
  listing_id : Str
  score : ℚ
  breakdown : ScoreBreakdown
  weights : ScoringWeights
  rejected : Bool
  rejection_reason : Option Str
deriving DecidableEq, Repr

/-- `JobScorer._convert_salary_to_eur`: `None` when no `max` is present,
otherwise the `max` salary times the exchange rate. -/
def convert_salary_to_eur (sr : SalaryRange) : Option ℚ :=
  match sr.max with
  | none => none
  | some m => some (m * eurRate (sr.currency.getD (str (r"EUR"))))

/-- `JobScorer._apply_hard_filters`: remote is mandatory, then the salary
floor on the EUR-converted `max` salary when both floor and salary data
are present (a floor of 0 and a converted salary of 0 are falsy in the
Python conditionals). The interpolated amounts of the salary reason
string are elided. -/
def apply_hard_filters (salary_floor : Option ℚ) (p : Listing) :
    Bool × Option Str :=
  let location := lowerChars p.location
  if location ≠ str (r"remote") then
    (true, some (str (r"Not remote (location=") ++ location ++ [')']))
  else
    match salary_floor, p.salary_range with
    | some floor, some sr =>
      if floor = 0 then (false, none)
      else
        match convert_salary_to_eur sr with
        | some se =>
          if se ≠ 0 ∧ se < floor then (true, some (str (r"Below salary floor")))
          else (false, none)
        | none => (false, none)
    | _, _ => (false, none)

/-- `JobScorer._score_remote`. -/
def score_remote (location : Str) : ℚ :=
  let l := lowerChars location
  if l = str (r"remote") then 100
  else if l = str (r"hybrid") then 20
  else 0

/-- Number of keywords of `kws` occurring as substrings of `text`
(`sum(1 for kw in kws if kw in text)`). -/
def subCount (kws : List Str) (text : Str) : Nat :=
  (kws.filter (fun k => containsSub k text)).length

/-- `JobScorer._score_ai_ml_relevance`: tiered keyword counts
(30/15/5 points), capped at 100. The searched text is
`f"{role} {description} {' '.join(tech_stack)}".lower()`. -/
def score_ai_ml_relevance (role description : Str) (tech_stack : List Str) : ℚ :=
  let text := lowerChars (role ++ ' ' :: description ++ ' ' :: joinSpace tech_stack)
  let score := subCount aiHigh text * 30 + subCount aiMedium text * 15 +
    subCount aiLow text * 5
  ((min score 100 : ℕ) : ℚ)

/-- `JobScorer._score_seniority`. -/
def score_seniority (seniority role : Str) : ℚ :=
  let s := lowerChars seniority
  let r := lowerChars role
  if s = str (r"senior") ∨ s = str (r"staff") ∨ s = str (r"principal") then 100
  else if [str (r"senior"), str (r"staff"), str (r"principal"), str (r"lead"),
      str (r"architect")].any (fun w => containsSub w r) then 100
  else if s = str (r"mid") ∨ containsSub (str (r"mid")) r then 60
  else if s = str (r"junior") ∨ containsSub (str (r"junior")) r then 20
  else 50

/-- `JobScorer._score_salary`: step function on the EUR-converted `max`
salary; 50 (neutral) when salary data or `max` is missing (a converted
salary of 0 is falsy and also yields 50). -/
def score_salary (sr? : Option SalaryRange) : ℚ :=
  match sr? with
  | none => 50
  | some sr =>
    match sr.max with
    | none => 50
    | some _ =>
      match convert_salary_to_eur sr with
      | none => 50
      | some se =>
        if se = 0 then 50
        else if se ≥ 150000 then 100
        else if se ≥ 130000 then 75
        else if se ≥ 100000 then 50
        else 25

/-- `JobScorer._score_fintech`: thresholded keyword count over
`f"{company} {description}".lower()`. -/
def score_fintech (company description : Str) : ℚ :=
  let text := lowerChars (company ++ ' ' :: description)
  let n := subCount fintechKeywords text
  if n ≥ 3 then 20
  else if n ≥ 2 then 15
  else if n ≥ 1 then 10
  else 0

/-- `JobScorer.score_listing` of `src/discovery/scorer/scorer.py`: hard
filters first, then the weighted combination; only the published total is
rounded to two decimals (the breakdown is published unrounded). -/
def score_listing (w : ScoringWeights) (salary_floor : Option ℚ)
    (p : Listing) : ScoredJob :=
  let hf := apply_hard_filters salary_floor p
  if hf.1 then
    { listing_id := p.listing_id
      score := 0
      breakdown := ⟨0, 0, 0, 0, 0⟩
      weights := w
      rejected := true
      rejection_reason := hf.2 }
  else
    let r := score_remote p.location
    let a := score_ai_ml_relevance p.role p.description p.tech_stack
    let sen := score_seniority p.seniority p.role
    let sal := score_salary p.salary_range
    let f := score_fintech p.company p.description
    let total := r * w.remote_match + a * w.ai_ml_relevance +
      sen * w.seniority_match + sal * w.salary_match + f * w.fintech_bonus
    { listing_id := p.listing_id
      score := round2 total
      breakdown := ⟨r, a, sen, sal, f⟩
      weights := w
      rejected := false
      rejection_reason := none }

end Scorer2

namespace Scanner

/-!
Embedding of `src/discovery/scanner.py` (`JobScanner`) and the dedup key
of `src/discovery/models.py` (`JobListing.dedup_key`).
-/

/-- `JobListing.dedup_key`: lower-cased, stripped `company::role`. -/
def dedupKey (l : Listing) : Str :=
  trimChars (lowerChars l.company) ++ str (r"::") ++ trimChars (lowerChars l.role)

/-- Source-tag merge of `JobScanner._deduplicate`: each tag of `src` is
appended to `dst` unless already present (set union preserving order of
first appearance). -/
def mergeSources (dst src : List Str) : List Str :=
  src.foldl (fun acc s => if s ∈ acc then acc else acc ++ [s]) dst

/-- Merge the sources of listing `x` into `e` when their dedup keys
agree, else leave `e` unchanged (the duplicate branch of
`JobScanner._deduplicate`). -/
def mergeInto (x e : Listing) : Listing :=
  if dedupKey e = dedupKey x then
    { e with sources := mergeSources e.sources x.sources }
  else e

/-- One step of `JobScanner._deduplicate`'s loop: if the key of `x` is
already in the map, union `x`'s sources into the canonical entry,
otherwise append `x` as a new entry. The insertion-ordered dict is
modelled as a list of entries. -/
def dedupStep (m : List Listing) (x : Listing) : List Listing :=
  if m.any (fun e => dedupKey e = dedupKey x) then m.map (mergeInto x)
  else m ++ [x]

/-- `JobScanner._deduplicate`. -/
def deduplicate (listings : List Listing) : List Listing :=
  listings.foldl dedupStep []

/-- Result of `JobScanner.scan`: the payload listings of the published
`OpportunityDiscovered` events, and the persisted seen-set (the seen-set
is a set of keys; it is modelled as a list with membership semantics).
The adapters and the summary counts of the returned dict are abstracted:
`fetched` is the concatenation of all successfully fetched listings. -/
structure ScanResult where
  events : List Listing
  seenAfter : List Str
deriving Repr

/-- `JobScanner.scan`: deduplicate, keep listings whose dedup key is not
in the seen-set, publish one event per new listing, extend the seen-set
with the published keys. -/
def scan (seen : List Str) (fetched : List Listing) : ScanResult :=
  let deduped := deduplicate fetched
  let newListings := deduped.filter (fun l => decide (dedupKey l ∉ seen))
  { events := newListings
    seenAfter := seen ++ newListings.map dedupKey }

/-- Durable write performed by a scan run: the event-file write of
`JobScanner._publish_events` or the seen-set write of
`JobScanner._save_seen`. -/
inductive Effect where
  | publishEvents (evs : List Listing)
  | saveSeen (keys : List Str)
deriving DecidableEq, Repr

/-- Ordered durable writes of one `JobScanner.scan` run: the event file
is written first (and only when there are events), then the seen-set. -/
def scanTrace (seen : List Str) (fetched : List Listing) : List Effect :=
  let res := scan seen fetched
  (if res.events.isEmpty then [] else [Effect.publishEvents res.events]) ++
    [Effect.saveSeen res.seenAfter]

end Scanner

namespace Qualifier

/-!
Embedding of `src/application/acl_opportunity_qualifier.py`
(`OpportunityQualifier`, `ApplicationCandidate`).
-/

/-- Scoring dimension entry of the scored-event payload's `dimensions`
dict, as read by `OpportunityQualifier.qualify` (`.get("reason", "")`). -/
structure Dimension where
  reason : Option Str := none
deriving DecidableEq, Repr

/-- Payload of a scored event as read by `OpportunityQualifier.qualify`:
each field models one `payload.get(...)` access; `none` models an absent
key. Only the two `dimensions` entries the qualifier reads are kept. -/
structure QPayload where
  verdict : Option Str := none
  score : ℚ := 0
  fintechDim : Option Dimension := none
  aimlDim : Option Dimension := none
  role : Str := []
  company : Str := []
  listing_id : Option Str := none
  url : Option Str := none
  rejection_reason : Option Str := none
deriving DecidableEq, Repr

/-- Scored event as consumed by the qualifier (`timestamp` is kept
because `qualify` stores it as the audit reference). -/
structure QEvent where
  timestamp : Option Str := none
  payload : QPayload := {}
deriving DecidableEq, Repr

/-- `ApplicationCandidate` of `src/application/acl_opportunity_qualifier.py`.
The wall-clock `qualified_at` field is elided; the opaque
`disc_context` audit dict is modelled by the event timestamp and score it
stores. -/
structure ApplicationCandidate where
  listing_id : Option Str
  company : Str
  role : Str
  url : Option Str
  score : ℚ
  role_type : Str
  fintech_signals : List Str
  aiml_signals : List Str
  tech_stack : List Str
  seniority : Str
  salary_range : Option Str
  location : Str
  disc_event_id : Option Str
  disc_score : ℚ
deriving DecidableEq, Repr

/-- Python `str.split(sep)` for a one-character separator. -/
def splitOnChar (sep : Char) (s : Str) : List Str :=
  match s with
  | [] => [[]]
  | c :: rest =>
    let tail := splitOnChar sep rest
    if c = sep then [] :: tail
    else
      match tail with
      | [] => [[c]]
      | t :: ts => (c :: t) :: ts

/-- `OpportunityQualifier._extract_keywords_from_reason`: parse a
`"N <category> keywords: a, b, c"` reason string into its keyword list. -/
def extract_keywords_from_reason (reason : Str) : List Str :=
  if reason = [] ∨ ¬ containsSub [':'] reason then []
  else if containsSub (str (r"keywords:")) (lowerChars reason) then
    let parts := splitOnChar ':' reason
    if parts.length ≥ 2 then
      let kwStr := trimChars ((parts.get? 1).getD [])
      ((splitOnChar ',' kwStr).map trimChars).filter (fun k => k ≠ [])
    else []
  else []

/-- `OpportunityQualifier._classify_role_type`: ordered rule cascade
fintech → ml_research → platform → general. -/
def classify_role_type (role company : Str) (fintech_signals : List Str)
    (_aiml_signals : List Str) : Str :=
  let role_lower := lowerChars role
  let company_lower := lowerChars company
  let fintechRoleKws := [str (r"fraud"), str (r"payment"), str (r"banking"),
    str (r"financial"), str (r"trading"), str (r"aml"), str (r"kyc")]
  let fintechCompanyKws := [str (r"bank"), str (r"fintech"), str (r"stripe"),
    str (r"jpmorgan"), str (r"goldman"), str (r"revolut")]
  let researchKws := [str (r"research"), str (r"scientist"), str (r"phd"),
    str (r"nlp"), str (r"computer vision"), str (r"llm"),
    str (r"foundation model")]
  let platformKws := [str (r"platform"), str (r"infrastructure"),
    str (r"mlops"), str (r"devops"), str (r"sre"), str (r"cloud")]
  if fintechRoleKws.any (fun kw => containsSub kw role_lower) ||
      fintechCompanyKws.any (fun kw => containsSub kw company_lower) ||
      fintech_signals.length ≥ 2 then str (r"fintech")
  else if researchKws.any (fun kw => containsSub kw role_lower) then
    str (r"ml_research")
  else if platformKws.any (fun kw => containsSub kw role_lower) then
    str (r"platform")
  else str (r"general")

/-- `OpportunityQualifier._extract_seniority`. -/
def extract_seniority (role : Str) : Str :=
  let role_lower := lowerChars role
  if [str (r"principal"), str (r"staff"), str (r"architect")].any
      (fun kw => containsSub kw role_lower) then str (r"principal")
  else if containsSub (str (r"senior")) role_lower ||
      containsSub (str (r"sr")) role_lower then str (r"senior")
  else if [str (r"lead"), str (r"manager")].any
      (fun kw => containsSub kw role_lower) then str (r"lead")
  else str (r"unknown")

/-- `OpportunityQualifier.qualify`: `None` unless the payload's verdict
is `"accept"` and its score reaches the threshold, otherwise the
translated `ApplicationCandidate`. -/
def qualify (score_threshold : ℚ) (scored_event : QEvent) :
    Option ApplicationCandidate :=
  let p := scored_event.payload
  if p.verdict ≠ some (str (r"accept")) then none
  else if p.score < score_threshold then none
  else
    let fintech_reason := ((p.fintechDim.getD {}).reason).getD []
    let fintech_signals := extract_keywords_from_reason fintech_reason
    let aiml_reason := ((p.aimlDim.getD {}).reason).getD []
    let aiml_signals := extract_keywords_from_reason aiml_reason
    some
      { listing_id := p.listing_id
        company := p.company
        role := p.role
        url := p.url
        score := p.score
        role_type := classify_role_type p.role p.company fintech_signals aiml_signals
        fintech_signals := fintech_signals
        aiml_signals := aiml_signals
        tech_stack := []
        seniority := extract_seniority p.role
        salary_range := none
        location := str (r"remote")
        disc_event_id := scored_event.timestamp
        disc_score := p.score }

/-- Scored-event payload produced by serialising a `ScoredOpportunity` of
`src/discovery/scorer.py` (`publish_scored_event`): the payload dict has
keys `listing_id`, `score`, `breakdown`, `weights`, `rejected`,
`rejection_reason` — in particular no `verdict`, `dimensions`, `role`,
`company` or `url` key. -/
def payloadOfScored1 (s : Scorer1.ScoredOpportunity) : QPayload :=
  { verdict := none
    score := s.score
    fintechDim := none
    aimlDim := none
    role := []
    company := []
    listing_id := some s.listing_id
    url := none
    rejection_reason := s.rejection_reason }

/-- Scored-event payload produced by serialising a `ScoredJob` of
`src/discovery/scorer/scorer.py` (`publish_event` / `OpportunityScored`):
the same schema as `payloadOfScored1`, again without a `verdict` key. -/
def payloadOfScored2 (s : Scorer2.ScoredJob) : QPayload :=
  { verdict := none
    score := s.score
    fintechDim := none
    aimlDim := none
    role := []
    company := []
    listing_id := some s.listing_id
    url := none
    rejection_reason := s.rejection_reason }

end Qualifier

namespace Scanner

/-- Invariant of `JobScanner._deduplicate`'s loop, tying the dedup map
`m` to the prefix `processed` of the input already folded in: keys in the
map are distinct; every entry is its key's first processed listing with
the sources accumulated so far, whose source set is exactly the union of
the sources of all processed listings sharing the key; and every
processed listing's key has an entry. -/
def Inv (processed m : List Listing) : Prop :=
  (m.map dedupKey).Nodup ∧
  (∀ e ∈ m, ∃ f, processed.find? (fun l => dedupKey l = dedupKey e) = some f ∧
     e = { f with sources := e.sources } ∧
     (∀ s, s ∈ e.sources ↔ ∃ l, l ∈ processed ∧ dedupKey l = dedupKey e ∧ s ∈ l.sources)) ∧
  (∀ l ∈ processed, ∃ e ∈ m, dedupKey e = dedupKey l)

end Scanner

/-!
Concrete instances used by the scenario claims and witnesses.
-/

/-- Scenario listing of the spec: JPMorgan Chase, Senior ML Engineer -
Fraud Detection, remote, 150k-180k EUR, senior. -/
def jpmListing : Listing :=
  { listing_id := str (r"jpm-1")
    company := str (r"JPMorgan Chase")
    role := str (r"Senior ML Engineer - Fraud Detection")
    location := str (r"remote")
    salary_range := some { min := some 150000, max := some 180000,
                           currency := some (str (r"EUR")) }
    seniority := str (r"senior") }

/-- Remote listing whose minimum salary (50k EUR) is below the default
salary floor of `src/discovery/scorer.py`. -/
def lowPayListing : Listing :=
  { listing_id := str (r"low-1")
    company := str (r"Budget Corp")
    role := str (r"Senior ML Engineer")
    location := str (r"remote")
    salary_range := some { min := some 50000, max := some 60000,
                           currency := some (str (r"EUR")) }
    seniority := str (r"senior") }

/-- Onsite listing (fails the remote hard filter). -/
def onsiteListing : Listing :=
  { listing_id := str (r"on-1")
    company := str (r"Local Startup")
    role := str (r"Junior Data Analyst")
    location := str (r"onsite")
    seniority := str (r"junior") }

/-- Minimal remote listing with no salary data. -/
def plainRemoteListing : Listing :=
  { listing_id := str (r"plain-1"), location := str (r"remote") }

/-- Engine-1 configuration whose seniority weight has four decimal
places. -/
def fourDecimalCfg : Scorer1.ScoringConfig :=
  { weights := { remote_match := 4/10, ai_ml_relevance := 3/10,
                 seniority_match := 1111/10000, salary_match := 1/10,
                 fintech_bonus := 5/100 } }

/-- Remote senior listing with no salary and no keyword matches. -/
def plainSeniorListing : Listing :=
  { location := str (r"remote"), seniority := str (r"senior") }

/-- Listing from the first adapter (CompanyA / ML Engineer). -/
def listingA : Listing :=
  { company := str (r"CompanyA"), role := str (r"ML Engineer"),
    sources := [str (r"hn_algolia")] }

/-- The same posting as `listingA` seen by a second adapter: equal dedup
key up to case and whitespace, different source tag. -/
def listingA2 : Listing :=
  { company := str (r"  CompanyA "), role := str (r"ML ENGINEER"),
    sources := [str (r"working_nomads")] }

/-- A distinct posting (CompanyB / Data Engineer). -/
def listingB : Listing :=
  { company := str (r"CompanyB"), role := str (r"Data Engineer"),
    sources := [str (r"working_nomads")] }

/-- Dedup key of `listingA` (and of `listingA2`). -/
def keyA : Str := str (r"companya::ml engineer")

/-- Seen-set already containing `keyA`. -/
def seenA : List Str := [keyA]

/-- Adapter output containing the duplicate pair and one fresh posting. -/
def fetchedAB : List Listing := [listingA, listingB]

/-- Input list with two listings sharing a dedup key. -/
def fetchedDup : List Listing := [listingA, listingB, listingA2]

/-!
Helper lemmas: rounding, sub-score integrality, hard-filter reasons,
and the deduplication invariant.
-/

theorem qfloor_eq_floor (x : ℚ) : qfloor x = ⌊x⌋ := Rat.floor_def.symm

theorem rhe_intCast (m : ℤ) : rhe ((m : ℤ) : ℚ) = m := by
  have hq : qfloor ((m : ℤ) : ℚ) = m := by
    rw [qfloor_eq_floor, Int.floor_intCast]
  simp [rhe, hq]

theorem round2_intCast (n : ℤ) : round2 ((n : ℤ) : ℚ) = (n : ℚ) := by
  have h : (100 : ℚ) * (n : ℚ) = ((100 * n : ℤ) : ℚ) := by push_cast; ring
  rw [round2, h, rhe_intCast]
  push_cast
  ring

theorem round2_natCast (n : ℕ) : round2 ((n : ℕ) : ℚ) = (n : ℚ) := by
  have h : ((n : ℕ) : ℚ) = ((n : ℤ) : ℚ) := by push_cast; ring
  rw [h, round2_intCast]

theorem round2_eq_self_int (x : ℚ) (n : ℤ) (h : x = (n : ℤ)) : round2 x = x := by
  rw [h, round2_intCast]

theorem round2_intDiv100 (n : ℤ) : round2 ((n : ℚ) / 100) = (n : ℚ) / 100 := by
  have h : (100 : ℚ) * ((n : ℚ) / 100) = (n : ℚ) := by field_simp
  rw [round2, h, rhe_intCast]

theorem round2_score_remote1 (p : Listing) :
    round2 (Scorer1.score_remote p) = Scorer1.score_remote p := by
  unfold Scorer1.score_remote
  dsimp only
  split_ifs
  · exact round2_eq_self_int _ 100 (by norm_num)
  · exact round2_eq_self_int _ 30 (by norm_num)
  · exact round2_eq_self_int _ 0 (by norm_num)

theorem round2_score_ai1 (p : Listing) :
    round2 (Scorer1.score_ai_ml_relevance p) = Scorer1.score_ai_ml_relevance p := by
  unfold Scorer1.score_ai_ml_relevance
  rw [round2_natCast]

theorem round2_score_seniority1 (p : Listing) :
    round2 (Scorer1.score_seniority p) = Scorer1.score_seniority p := by
  unfold Scorer1.score_seniority
  dsimp only
  split_ifs
  · exact round2_eq_self_int _ 100 (by norm_num)
  · exact round2_eq_self_int _ 90 (by norm_num)
  · exact round2_eq_self_int _ 50 (by norm_num)
  · exact round2_eq_self_int _ 20 (by norm_num)
  · exact round2_eq_self_int _ 100 (by norm_num)
  · exact round2_eq_self_int _ 90 (by norm_num)
  · exact round2_eq_self_int _ 60 (by norm_num)

theorem round2_score_salary1 (p : Listing) :
    round2 (Scorer1.score_salary p) = Scorer1.score_salary p := by
  unfold Scorer1.score_salary
  cases p.salary_range with
  | none => exact round2_eq_self_int _ 60 (by norm_num)
  | some sr =>
    dsimp only
    split_ifs
    · exact round2_eq_self_int _ 100 (by norm_num)
    · exact round2_eq_self_int _ 85 (by norm_num)
    · exact round2_eq_self_int _ 70 (by norm_num)
    · exact round2_eq_self_int _ 50 (by norm_num)

theorem round2_score_fintech1 (p : Listing) :
    round2 (Scorer1.score_fintech_bonus p) = Scorer1.score_fintech_bonus p := by
  unfold Scorer1.score_fintech_bonus
  rw [round2_natCast]

theorem hard_filters_reason2 (fl : Option ℚ) (p : Listing) :
    (Scorer2.apply_hard_filters fl p).1 = true →
    (Scorer2.apply_hard_filters fl p).2.isSome = true := by
  unfold Scorer2.apply_hard_filters
  by_cases hl : lowerChars p.location ≠ str (r"remote")
  · simp [hl]
  · cases fl with
    | none => simp [hl]
    | some floor =>
      cases hsr : p.salary_range with
      | none => simp [hl, hsr]
      | some sr =>
        simp only [hl, hsr, if_neg, if_false]
        split_ifs <;> simp_all [Scorer2.convert_salary_to_eur]
        · cases hm : sr.max with
          | none => simp_all
          | some m =>
            simp_all
            split_ifs <;> simp

namespace Scanner

theorem mem_mergeSources (src : List Str) : ∀ (dst : List Str) (x : Str),
    x ∈ mergeSources dst src ↔ x ∈ dst ∨ x ∈ src := by
  induction src with
  | nil => intro dst x; simp [mergeSources]
  | cons s rest ih =>
    intro dst x
    have hstep : mergeSources dst (s :: rest) =
        mergeSources (if s ∈ dst then dst else dst ++ [s]) rest := by
      simp only [mergeSources, List.foldl_cons]
    rw [hstep, ih]
    by_cases hs : s ∈ dst
    · simp only [if_pos hs, List.mem_cons]
      constructor
      · rintro (h | h)
        · exact Or.inl h
        · exact Or.inr (Or.inr h)
      · rintro (h | rfl | h)
        · exact Or.inl h
        · exact Or.inl hs
        · exact Or.inr h
    · simp only [if_neg hs, List.mem_append, List.mem_singleton, List.mem_cons]
      tauto

theorem dedupKey_mergeInto (x e : Listing) :
    dedupKey (mergeInto x e) = dedupKey e := by
  unfold mergeInto
  split <;> rfl

theorem sources_mergeInto_of_eq (x e : Listing) (h : dedupKey e = dedupKey x) :
    (mergeInto x e).sources = mergeSources e.sources x.sources := by
  unfold mergeInto
  rw [if_pos h]

theorem mergeInto_of_ne (x e : Listing) (h : ¬ dedupKey e = dedupKey x) :
    mergeInto x e = e := by
  unfold mergeInto
  rw [if_neg h]

theorem inv_nil : Inv [] [] := by
  refine ⟨by simp, ?_, ?_⟩ <;> intro e he <;> cases he

theorem inv_step {p m : List Listing} (x : Listing) (h : Inv p m) :
    Inv (p ++ [x]) (dedupStep m x) := by
  obtain ⟨hnd, hcanon, hcomp⟩ := h
  by_cases hany : m.any (fun e => dedupKey e = dedupKey x)
  · rw [dedupStep, if_pos hany]
    obtain ⟨e0, he0m, he0k⟩ : ∃ e ∈ m, dedupKey e = dedupKey x := by
      simpa [List.any_eq_true] using hany
    refine ⟨?_, ?_, ?_⟩
    · simpa [List.map_map, Function.comp_def, dedupKey_mergeInto] using hnd
    · intro e' he'
      obtain ⟨e, hem, rfl⟩ := List.mem_map.mp he'
      obtain ⟨f, hfind, hform, hsrc⟩ := hcanon e hem
      refine ⟨f, ?_, ?_, ?_⟩
      · rw [dedupKey_mergeInto]
        simp [List.find?_append, hfind]
      · by_cases hk : dedupKey e = dedupKey x
        · rw [mergeInto, if_pos hk]
          conv_lhs => rw [hform]
        · rw [mergeInto_of_ne x e hk]
          exact hform
      · intro s
        rw [dedupKey_mergeInto]
        by_cases hk : dedupKey e = dedupKey x
        · rw [sources_mergeInto_of_eq x e hk, mem_mergeSources, hsrc s]
          constructor
          · rintro (⟨l, hl, hlk, hs⟩ | hs)
            · exact ⟨l, List.mem_append_left _ hl, hlk, hs⟩
            · exact ⟨x, List.mem_append_right _ (List.mem_singleton.mpr rfl), hk.symm, hs⟩
          · rintro ⟨l, hl, hlk, hs⟩
            rcases List.mem_append.mp hl with hl | hl
            · exact Or.inl ⟨l, hl, hlk, hs⟩
            · rw [List.mem_singleton.mp hl] at hs
              exact Or.inr hs
        · rw [mergeInto_of_ne x e hk, hsrc s]
          constructor
          · rintro ⟨l, hl, hlk, hs⟩
            exact ⟨l, List.mem_append_left _ hl, hlk, hs⟩
          · rintro ⟨l, hl, hlk, hs⟩
            rcases List.mem_append.mp hl with hl | hl
            · exact ⟨l, hl, hlk, hs⟩
            · rw [List.mem_singleton.mp hl] at hlk
              exact absurd hlk.symm hk
    · intro l hl
      rcases List.mem_append.mp hl with hl | hl
      · obtain ⟨e, hem, hek⟩ := hcomp l hl
        exact ⟨mergeInto x e, List.mem_map_of_mem _ hem, by rw [dedupKey_mergeInto, hek]⟩
      · rw [List.mem_singleton.mp hl]
        exact ⟨mergeInto x e0, List.mem_map_of_mem _ he0m, by rw [dedupKey_mergeInto, he0k]⟩
  · rw [dedupStep, if_neg hany]
    have hnotin : ∀ e ∈ m, ¬ dedupKey e = dedupKey x := by
      simpa [List.any_eq_false] using hany
    have hpnot : ∀ l ∈ p, ¬ dedupKey l = dedupKey x := by
      intro l hl hk
      obtain ⟨e, hem, hek⟩ := hcomp l hl
      exact hnotin e hem (hek.trans hk)
    refine ⟨?_, ?_, ?_⟩
    · rw [List.map_append]
      simp only [List.map_singleton]
      rw [List.nodup_append]
      refine ⟨hnd, List.nodup_singleton _, ?_⟩
      intro a ha hb
      rw [List.mem_singleton.mp hb] at ha
      obtain ⟨e, hem, hek⟩ := List.mem_map.mp ha
      exact hnotin e hem hek
    · intro e he
      rcases List.mem_append.mp he with he | he
      · obtain ⟨f, hfind, hform, hsrc⟩ := hcanon e he
        refine ⟨f, by simp [List.find?_append, hfind], hform, ?_⟩
        intro s
        rw [hsrc s]
        constructor
        · rintro ⟨l, hl, hlk, hs⟩
          exact ⟨l, List.mem_append_left _ hl, hlk, hs⟩
        · rintro ⟨l, hl, hlk, hs⟩
          rcases List.mem_append.mp hl with hl | hl
          · exact ⟨l, hl, hlk, hs⟩
          · rw [List.mem_singleton.mp hl] at hlk
            exact absurd hlk.symm (hnotin e he)
      · rw [List.mem_singleton.mp he]
        have hfind : p.find? (fun l => dedupKey l = dedupKey x) = none := by
          rw [List.find?_eq_none]
          intro l hl
          simpa using hpnot l hl
        refine ⟨x, ?_, by simp, ?_⟩
        · rw [List.find?_append, hfind]
          simp [List.find?_cons]
        · intro s
          constructor
          · intro hs
            exact ⟨x, List.mem_append_right _ (List.mem_singleton.mpr rfl), rfl, hs⟩
          · rintro ⟨l, hl, hlk, hs⟩
            rcases List.mem_append.mp hl with hl | hl
            · exact absurd hlk (hpnot l hl)
            · rw [List.mem_singleton.mp hl] at hs
              exact hs
    · intro l hl
      rcases List.mem_append.mp hl with hl | hl
      · obtain ⟨e, hem, hek⟩ := hcomp l hl
        exact ⟨e, List.mem_append_left _ hem, hek⟩
      · rw [List.mem_singleton.mp hl]
        exact ⟨x, List.mem_append_right _ (List.mem_singleton.mpr rfl), rfl⟩

theorem inv_foldl (xs : List Listing) : ∀ (p m : List Listing), Inv p m →
    Inv (p ++ xs) (xs.foldl dedupStep m) := by
  induction xs with
  | nil => intro p m h; simpa using h
  | cons x rest ih =>
    intro p m h
    have h1 := inv_step x h
    have h2 := ih (p ++ [x]) (dedupStep m x) h1
    simpa [List.append_assoc] using h2

theorem inv_deduplicate (ls : List Listing) : Inv ls (deduplicate ls) := by
  have h := inv_foldl ls [] [] inv_nil
  simpa [deduplicate] using h

theorem filter_key_singleton : ∀ (m : List Listing), (m.map dedupKey).Nodup →
    ∀ e ∈ m, m.filter (fun x => dedupKey x = dedupKey e) = [e] := by
  intro m
  induction m with
  | nil => intro _ e he; cases he
  | cons a rest ih =>
    intro hnd e he
    rw [List.map_cons, List.nodup_cons] at hnd
    rcases List.mem_cons.mp he with rfl | hrest
    · rw [List.filter_cons_of_pos (by simp)]
      have hnone : ∀ x ∈ rest, ¬ (dedupKey x = dedupKey e) := by
        intro x hx hk
        exact hnd.1 (hk ▸ List.mem_map_of_mem dedupKey hx)
      rw [List.filter_eq_nil_iff.mpr (by simpa using hnone)]
    · have hne : ¬ (dedupKey a = dedupKey e) := by
        intro hk
        exact hnd.1 (hk ▸ List.mem_map_of_mem dedupKey hrest)
      rw [List.filter_cons_of_neg (by simpa using hne)]
      exact ih hnd.2 e hrest

theorem scan_events_def (seen : List Str) (fetched : List Listing) :
    (scan seen fetched).events =
      (deduplicate fetched).filter (fun l => decide (dedupKey l ∉ seen)) := rfl

theorem scan_seenAfter_def (seen : List Str) (fetched : List Listing) :
    (scan seen fetched).seenAfter =
      seen ++ ((scan seen fetched).events).map dedupKey := rfl

end Scanner

/-!
Evaluation of both scoring engines on the spec's scenario listing.
-/

theorem jpm_engine1_facts :
    (Scorer1.score_listing {} jpmListing).rejected = false ∧
    (Scorer1.score_listing {} jpmListing).breakdown.remote_match = 100 ∧
    (Scorer1.score_listing {} jpmListing).breakdown.seniority_match = 90 ∧
    (Scorer1.score_listing {} jpmListing).breakdown.salary_match = 100 ∧
    (Scorer1.score_listing {} jpmListing).score = 267/4 := by
  have hrf : Scorer1.remoteFilterFires {} jpmListing = false := by decide
  have hsf : Scorer1.salaryFloorFires {} jpmListing = false := by
    simp only [Scorer1.salaryFloorFires, jpmListing, Option.getD]
    rw [if_neg (by norm_num)]
    simp only [decide_eq_false_iff_not, not_and, not_lt]
    intro h
    simp only [Scorer1.eurRate] at *
    norm_num at *
  have hai : Scorer1.score_ai_ml_relevance jpmListing = 10 := by
    have h : Scorer1.uniqueWordMatches Scorer1.ai_ml_keywords
        (Scorer1.aiMlText jpmListing) = 1 := by decide
    rw [Scorer1.score_ai_ml_relevance, h]
    norm_num
  have hfin : Scorer1.score_fintech_bonus jpmListing = 5 := by
    have h : Scorer1.uniqueWordMatches Scorer1.fintech_keywords
        (Scorer1.fintechText jpmListing) = 1 := by decide
    rw [Scorer1.score_fintech_bonus, h]
    norm_num
  have hsal : Scorer1.score_salary jpmListing = 100 := by
    simp only [Scorer1.score_salary, jpmListing, Option.getD]
    rw [if_pos (by simp only [Scorer1.eurRate]; norm_num)]
  have hrem : Scorer1.score_remote jpmListing = 100 := rfl
  have hsen : Scorer1.score_seniority jpmListing = 90 := rfl
  refine ⟨by simp [Scorer1.score_listing, hrf, hsf], ?_, ?_, ?_, ?_⟩ <;>
    simp only [Scorer1.score_listing, hrf, hsf, Bool.false_eq_true, if_false]
  · rw [hrem]
    exact round2_eq_self_int _ 100 (by norm_num)
  · rw [hsen]
    exact round2_eq_self_int _ 90 (by norm_num)
  · rw [hsal]
    exact round2_eq_self_int _ 100 (by norm_num)
  · rw [hrem, hai, hsen, hsal, hfin]
    have h1 : (100:ℚ) * (40/100 : ℚ) + (10:ℚ) * (30/100 : ℚ) + (90:ℚ) * (15/100 : ℚ) +
        (100:ℚ) * (10/100 : ℚ) + (5:ℚ) * (5/100 : ℚ) = ((6675 : ℤ) : ℚ)/100 := by norm_num
    rw [h1, round2_intDiv100]
    norm_num

theorem jpm_engine2_facts :
    (Scorer2.score_listing {} (some 100000) jpmListing).rejected = false ∧
    (Scorer2.score_listing {} (some 100000) jpmListing).breakdown.remote_match = 100 ∧
    (Scorer2.score_listing {} (some 100000) jpmListing).breakdown.seniority_match = 100 ∧
    (Scorer2.score_listing {} (some 100000) jpmListing).breakdown.salary_match = 100 ∧
    (Scorer2.score_listing {} (some 100000) jpmListing).score = 79 := by
  have hhf : (Scorer2.apply_hard_filters (some 100000) jpmListing).1 = false := by
    simp only [Scorer2.apply_hard_filters, jpmListing, Scorer2.convert_salary_to_eur,
      Option.getD]
    rw [if_neg (by decide)]
    rw [if_neg (by norm_num)]
    rw [if_neg (by simp only [Scorer2.eurRate]; norm_num)]
  have hai : Scorer2.score_ai_ml_relevance jpmListing.role jpmListing.description
      jpmListing.tech_stack = 45 := by
    have h1 : Scorer2.subCount Scorer2.aiHigh (lowerChars (jpmListing.role ++ ' ' ::
        jpmListing.description ++ ' ' :: joinSpace jpmListing.tech_stack)) = 1 := by decide
    have h2 : Scorer2.subCount Scorer2.aiMedium (lowerChars (jpmListing.role ++ ' ' ::
        jpmListing.description ++ ' ' :: joinSpace jpmListing.tech_stack)) = 1 := by decide
    have h3 : Scorer2.subCount Scorer2.aiLow (lowerChars (jpmListing.role ++ ' ' ::
        jpmListing.description ++ ' ' :: joinSpace jpmListing.tech_stack)) = 0 := by decide
    rw [Scorer2.score_ai_ml_relevance, h1, h2, h3]
    norm_num
  have hsal : Scorer2.score_salary jpmListing.salary_range = 100 := by
    simp only [jpmListing, Scorer2.score_salary, Scorer2.convert_salary_to_eur, Option.getD]
    rw [if_neg (by simp only [Scorer2.eurRate]; norm_num)]
    rw [if_pos (by simp only [Scorer2.eurRate]; norm_num)]
  have hfin : Scorer2.score_fintech jpmListing.company jpmListing.description = 10 := by
    have h : Scorer2.subCount Scorer2.fintechKeywords
        (lowerChars (jpmListing.company ++ ' ' :: jpmListing.description)) = 1 := by decide
    rw [Scorer2.score_fintech, h]
    norm_num
  have hrem : Scorer2.score_remote jpmListing.location = 100 := rfl
  have hsen : Scorer2.score_seniority jpmListing.seniority jpmListing.role = 100 := rfl
  refine ⟨by simp [Scorer2.score_listing, hhf], ?_, ?_, ?_, ?_⟩ <;>
    simp only [Scorer2.score_listing, hhf, Bool.false_eq_true, if_false]
  · exact hrem
  · exact hsen
  · exact hsal
  · rw [hrem, hai, hsen, hsal, hfin]
    have h1 : (100:ℚ) * (35/100 : ℚ) + (45:ℚ) * (30/100 : ℚ) + (100:ℚ) * (20/100 : ℚ) +
        (100:ℚ) * (10/100 : ℚ) + (10:ℚ) * (5/100 : ℚ) = ((79 : ℤ) : ℚ) := by norm_num
    rw [h1, round2_intCast]
    norm_num

/-!
Claim theorems.
-/

/-- C1 (counterexample): on the engine of `src/discovery/scorer.py`, the
remote listing `lowPayListing` (minimum salary 50k EUR, below the default
120k floor) is rejected by the salary-floor hard filter with score 0, yet
its published breakdown records `remote_match = 100`, not 0 — refuting
the claim that every rejected listing carries an all-zero breakdown
including `remote_match`. -/
theorem c1_counterexample :
    (Scorer1.score_listing {} lowPayListing).rejected = true ∧
    (Scorer1.score_listing {} lowPayListing).score = 0 ∧
    (Scorer1.score_listing {} lowPayListing).breakdown.remote_match = 100 ∧
    (Scorer1.score_listing {} lowPayListing).breakdown.remote_match ≠ 0 := by
  have hrf : Scorer1.remoteFilterFires {} lowPayListing = false := by decide
  have hsf : Scorer1.salaryFloorFires {} lowPayListing = true := by
    simp only [Scorer1.salaryFloorFires, lowPayListing, Option.getD]
    rw [if_neg (by norm_num)]
    simp only [decide_eq_true_eq, Scorer1.eurRate]
    norm_num
  refine ⟨?_, ?_, ?_, ?_⟩ <;>
    simp [Scorer1.score_listing, hrf, hsf]

/-- C1 (amended): every listing failing a hard filter is rejected with
score 0, a populated rejection reason, and zero `ai_ml_relevance`,
`seniority_match`, `salary_match` and `fintech_bonus` sub-scores. In
`src/discovery/scorer/scorer.py` the whole breakdown is all-zero; in
`src/discovery/scorer.py` the `remote_match` sub-score is 0 for a
not-remote rejection but 100 for a salary-floor rejection (the filter it
passed). -/
theorem c1_hard_filter_rejected_breakdown :
    (∀ (cfg : Scorer1.ScoringConfig) (p : Listing),
      (Scorer1.score_listing cfg p).rejected = true →
      (Scorer1.score_listing cfg p).score = 0 ∧
      (Scorer1.score_listing cfg p).rejection_reason.isSome = true ∧
      (Scorer1.score_listing cfg p).breakdown.ai_ml_relevance = 0 ∧
      (Scorer1.score_listing cfg p).breakdown.seniority_match = 0 ∧
      (Scorer1.score_listing cfg p).breakdown.salary_match = 0 ∧
      (Scorer1.score_listing cfg p).breakdown.fintech_bonus = 0 ∧
      (Scorer1.score_listing cfg p).breakdown.remote_match =
        (if Scorer1.remoteFilterFires cfg p then 0 else 100)) ∧
    (∀ (w : Scorer2.ScoringWeights) (fl : Option ℚ) (p : Listing),
      (Scorer2.score_listing w fl p).rejected = true →
      (Scorer2.score_listing w fl p).score = 0 ∧
      (Scorer2.score_listing w fl p).rejection_reason.isSome = true ∧
      (Scorer2.score_listing w fl p).breakdown = ⟨0, 0, 0, 0, 0⟩) := by
  constructor
  · intro cfg p h
    by_cases h1 : Scorer1.remoteFilterFires cfg p
    · simp [Scorer1.score_listing, h1]
    · by_cases h2 : Scorer1.salaryFloorFires cfg p
      · simp [Scorer1.score_listing, h1, h2]
      · simp [Scorer1.score_listing, h1, h2] at h
  · intro w fl p h
    by_cases h1 : (Scorer2.apply_hard_filters fl p).1
    · refine ⟨by simp [Scorer2.score_listing, h1], ?_, by simp [Scorer2.score_listing, h1]⟩
      have hr := hard_filters_reason2 fl p h1
      simp [Scorer2.score_listing, h1, hr]
    · simp [Scorer2.score_listing, h1] at h

/-- C1 (witness): the onsite listing is rejected by both engines with
the amended breakdown shape. -/
theorem c1_witness :
    ((Scorer1.score_listing {} onsiteListing).rejected = true ∧
     (Scorer1.score_listing {} onsiteListing).score = 0 ∧
     (Scorer1.score_listing {} onsiteListing).rejection_reason.isSome = true ∧
     (Scorer1.score_listing {} onsiteListing).breakdown.ai_ml_relevance = 0 ∧
     (Scorer1.score_listing {} onsiteListing).breakdown.seniority_match = 0 ∧
     (Scorer1.score_listing {} onsiteListing).breakdown.salary_match = 0 ∧
     (Scorer1.score_listing {} onsiteListing).breakdown.fintech_bonus = 0 ∧
     (Scorer1.score_listing {} onsiteListing).breakdown.remote_match =
       (if Scorer1.remoteFilterFires {} onsiteListing then 0 else 100)) ∧
    ((Scorer2.score_listing {} (some 100000) onsiteListing).rejected = true ∧
     (Scorer2.score_listing {} (some 100000) onsiteListing).score = 0 ∧
     (Scorer2.score_listing {} (some 100000) onsiteListing).rejection_reason.isSome = true ∧
     (Scorer2.score_listing {} (some 100000) onsiteListing).breakdown = ⟨0, 0, 0, 0, 0⟩) :=
  ⟨⟨by decide, c1_hard_filter_rejected_breakdown.1 {} onsiteListing (by decide)⟩,
   ⟨by decide, c1_hard_filter_rejected_breakdown.2 {} (some 100000) onsiteListing (by decide)⟩⟩

/-- C2 (counterexample): the spec's scenario fails on both engines. On
`src/discovery/scorer.py` with default configuration the listing scores
66.75, not more than 75; on `src/discovery/scorer/scorer.py` with default
weights the seniority sub-score is 100, not 90. -/
theorem c2_counterexample :
    ¬ ((Scorer1.score_listing {} jpmListing).rejected = false ∧
       75 < (Scorer1.score_listing {} jpmListing).score ∧
       (Scorer1.score_listing {} jpmListing).breakdown.remote_match = 100 ∧
       (Scorer1.score_listing {} jpmListing).breakdown.seniority_match = 90 ∧
       (Scorer1.score_listing {} jpmListing).breakdown.salary_match = 100) ∧
    ¬ ((Scorer2.score_listing {} (some 100000) jpmListing).rejected = false ∧
       75 < (Scorer2.score_listing {} (some 100000) jpmListing).score ∧
       (Scorer2.score_listing {} (some 100000) jpmListing).breakdown.remote_match = 100 ∧
       (Scorer2.score_listing {} (some 100000) jpmListing).breakdown.seniority_match = 90 ∧
       (Scorer2.score_listing {} (some 100000) jpmListing).breakdown.salary_match = 100) := by
  constructor
  · rintro ⟨-, hgt, -, -, -⟩
    rw [jpm_engine1_facts.2.2.2.2] at hgt
    norm_num at hgt
  · rintro ⟨-, -, -, hsen, -⟩
    rw [jpm_engine2_facts.2.2.1] at hsen
    norm_num at hsen

/-- C2 (amended): scoring the scenario listing with default weights and
configuration: `src/discovery/scorer.py` yields a non-rejected result
with remote 100, seniority 90, salary 100 and total 66.75 (which is
below, not above, 75); `src/discovery/scorer/scorer.py` yields a
non-rejected result with remote 100, salary 100 and total 79 > 75, but
seniority 100 rather than 90. -/
theorem c2_default_scenario_scores :
    ((Scorer1.score_listing {} jpmListing).rejected = false ∧
     (Scorer1.score_listing {} jpmListing).breakdown.remote_match = 100 ∧
     (Scorer1.score_listing {} jpmListing).breakdown.seniority_match = 90 ∧
     (Scorer1.score_listing {} jpmListing).breakdown.salary_match = 100 ∧
     (Scorer1.score_listing {} jpmListing).score = 267/4 ∧
     (Scorer1.score_listing {} jpmListing).score < 75) ∧
    ((Scorer2.score_listing {} (some 100000) jpmListing).rejected = false ∧
     (Scorer2.score_listing {} (some 100000) jpmListing).breakdown.remote_match = 100 ∧
     (Scorer2.score_listing {} (some 100000) jpmListing).breakdown.seniority_match = 100 ∧
     (Scorer2.score_listing {} (some 100000) jpmListing).breakdown.salary_match = 100 ∧
     (Scorer2.score_listing {} (some 100000) jpmListing).score = 79 ∧
     75 < (Scorer2.score_listing {} (some 100000) jpmListing).score) := by
  obtain ⟨h1, h2, h3, h4, h5⟩ := jpm_engine1_facts
  obtain ⟨g1, g2, g3, g4, g5⟩ := jpm_engine2_facts
  refine ⟨⟨h1, h2, h3, h4, h5, ?_⟩, ⟨g1, g2, g3, g4, g5, ?_⟩⟩
  · rw [h5]; norm_num
  · rw [g5]; norm_num

/-- C3: every scored event whose payload is the serialised output of
either in-repo scoring engine is dropped by `OpportunityQualifier.qualify`
— the scorers' output schema has a `rejected` field but never a
`verdict` field, and `qualify` requires `verdict == "accept"` — so
`qualify` returns `None` for every such event, whatever the threshold,
score, or rejection status. -/
theorem c3_qualifier_rejects_scorer_schema :
    ∀ (th : ℚ) (ts : Option Str) (s1 : Scorer1.ScoredOpportunity)
      (s2 : Scorer2.ScoredJob),
      Qualifier.qualify th { timestamp := ts, payload := Qualifier.payloadOfScored1 s1 } = none ∧
      Qualifier.qualify th { timestamp := ts, payload := Qualifier.payloadOfScored2 s2 } = none := by
  intro th ts s1 s2
  constructor <;>
    simp [Qualifier.qualify, Qualifier.payloadOfScored1, Qualifier.payloadOfScored2]

/-- C4: deduplication produces exactly one entry per distinct dedup key
(lower-cased, trimmed `company::role`): for any key present in the input,
the output contains exactly one entry with that key, the entry is the
first input listing with that key in all fields except `sources`, and its
source set is exactly the union of the sources of all input listings
sharing the key. -/
theorem c4_dedup_unions_sources :
    ∀ (ls : List Listing) (k : Str) (f : Listing),
      ls.find? (fun l => Scanner.dedupKey l = k) = some f →
      ∃ e, (Scanner.deduplicate ls).filter (fun x => Scanner.dedupKey x = k) = [e] ∧
        e = { f with sources := e.sources } ∧
        (∀ s, s ∈ e.sources ↔ ∃ l, l ∈ ls ∧ Scanner.dedupKey l = k ∧ s ∈ l.sources) := by
  intro ls k f hfind
  obtain ⟨hnd, hcanon, hcomp⟩ := Scanner.inv_deduplicate ls
  have hfk : Scanner.dedupKey f = k := by
    have := List.find?_some hfind
    simpa using this
  have hfmem : f ∈ ls := List.mem_of_find?_eq_some hfind
  obtain ⟨e, hem, hek⟩ := hcomp f hfmem
  have hekk : Scanner.dedupKey e = k := hek.trans hfk
  refine ⟨e, ?_, ?_, ?_⟩
  · rw [← hekk]
    exact Scanner.filter_key_singleton (Scanner.deduplicate ls) hnd e hem
  · obtain ⟨f', hfind', hform, _⟩ := hcanon e hem
    rw [hekk] at hfind'
    rw [hfind] at hfind'
    have hff : f = f' := Option.some_inj.mp hfind'
    rw [← hff] at hform
    exact hform
  · obtain ⟨f', _, _, hsrc⟩ := hcanon e hem
    intro s
    rw [hsrc s, hekk]

/-- C4 (witness): deduplicating `[listingA, listingB, listingA2]`, where
`listingA` and `listingA2` share the dedup key `companya::ml engineer`,
keeps exactly one entry for that key — canonically `listingA` — whose
source set is the union of both listings' sources. -/
theorem c4_witness :
    fetchedDup.find? (fun l => Scanner.dedupKey l = keyA) = some listingA ∧
    (∃ e, (Scanner.deduplicate fetchedDup).filter (fun x => Scanner.dedupKey x = keyA) = [e] ∧
      e = { listingA with sources := e.sources } ∧
      (∀ s, s ∈ e.sources ↔ ∃ l, l ∈ fetchedDup ∧ Scanner.dedupKey l = keyA ∧ s ∈ l.sources)) :=
  ⟨by decide, c4_dedup_unions_sources fetchedDup keyA listingA (by decide)⟩

/-- C5: a dedup key already in the seen-set at the start of a scan never
has a discovery event published for it during that scan; and a second
scan from the persisted seen-set with identical adapter output publishes
no events at all. -/
theorem c5_seen_keys_not_republished :
    ∀ (seen : List Str) (fetched : List Listing),
      (∀ k, k ∈ seen → ∀ e, e ∈ (Scanner.scan seen fetched).events →
        Scanner.dedupKey e ≠ k) ∧
      (Scanner.scan (Scanner.scan seen fetched).seenAfter fetched).events = [] := by
  intro seen fetched
  constructor
  · intro k hk e he hke
    rw [Scanner.scan_events_def] at he
    have hnot := (List.mem_filter.mp he).2
    rw [decide_eq_true_eq] at hnot
    exact hnot (hke ▸ hk)
  · rw [Scanner.scan_events_def, List.filter_eq_nil_iff]
    intro l hl
    rw [decide_eq_true_eq, not_not]
    rw [Scanner.scan_seenAfter_def, List.mem_append]
    by_cases hseen : Scanner.dedupKey l ∈ seen
    · exact Or.inl hseen
    · refine Or.inr (List.mem_map_of_mem Scanner.dedupKey ?_)
      rw [Scanner.scan_events_def, List.mem_filter]
      exact ⟨hl, by simpa using hseen⟩

/-- C5 (witness): with `keyA` already seen, scanning `[listingA,
listingB]` publishes no event with `keyA` (the one published event is for
`listingB`), and a rescan from the updated seen-set publishes nothing. -/
theorem c5_witness :
    keyA ∈ seenA ∧
    listingB ∈ (Scanner.scan seenA fetchedAB).events ∧
    Scanner.dedupKey listingB ≠ keyA ∧
    (Scanner.scan (Scanner.scan seenA fetchedAB).seenAfter fetchedAB).events = [] :=
  ⟨by decide, by decide,
   (c5_seen_keys_not_republished seenA fetchedAB).1 keyA (by decide) listingB (by decide),
   (c5_seen_keys_not_republished seenA fetchedAB).2⟩

/-- C6 (counterexample): with a seniority weight of 0.1111 (four decimal
places, admissible configuration) the engine of `src/discovery/scorer.py`
publishes total 56 for a non-rejected listing whose sub-score/weight
products sum to 55.999 — the published total is the rounded sum, not the
sum itself. -/
theorem c6_counterexample :
    (Scorer1.score_listing fourDecimalCfg plainSeniorListing).rejected = false ∧
    (Scorer1.score_listing fourDecimalCfg plainSeniorListing).score ≠
      ((Scorer1.score_listing fourDecimalCfg plainSeniorListing).breakdown.remote_match *
         fourDecimalCfg.weights.remote_match +
       (Scorer1.score_listing fourDecimalCfg plainSeniorListing).breakdown.ai_ml_relevance *
         fourDecimalCfg.weights.ai_ml_relevance +
       (Scorer1.score_listing fourDecimalCfg plainSeniorListing).breakdown.seniority_match *
         fourDecimalCfg.weights.seniority_match +
       (Scorer1.score_listing fourDecimalCfg plainSeniorListing).breakdown.salary_match *
         fourDecimalCfg.weights.salary_match +
       (Scorer1.score_listing fourDecimalCfg plainSeniorListing).breakdown.fintech_bonus *
         fourDecimalCfg.weights.fintech_bonus) := by
  have hrf : Scorer1.remoteFilterFires fourDecimalCfg plainSeniorListing = false := by decide
  have hsf : Scorer1.salaryFloorFires fourDecimalCfg plainSeniorListing = false := by decide
  have hai : Scorer1.score_ai_ml_relevance plainSeniorListing = 0 := by
    have h : Scorer1.uniqueWordMatches Scorer1.ai_ml_keywords
        (Scorer1.aiMlText plainSeniorListing) = 0 := by decide
    rw [Scorer1.score_ai_ml_relevance, h]
    norm_num
  have hfin : Scorer1.score_fintech_bonus plainSeniorListing = 0 := by
    have h : Scorer1.uniqueWordMatches Scorer1.fintech_keywords
        (Scorer1.fintechText plainSeniorListing) = 0 := by decide
    rw [Scorer1.score_fintech_bonus, h]
    norm_num
  have hrem : Scorer1.score_remote plainSeniorListing = 100 := rfl
  have hsen : Scorer1.score_seniority plainSeniorListing = 90 := rfl
  have hsal : Scorer1.score_salary plainSeniorListing = 60 := rfl
  have hq : qfloor ((55999 : ℚ)/10) = 5599 := by
    rw [qfloor_eq_floor,
      show ((55999 : ℚ)/10) = (((55999 : ℤ) : ℚ)/((10 : ℕ) : ℚ)) by norm_num,
      Rat.floor_intCast_div_natCast]
    decide
  have hrhe : rhe ((55999 : ℚ)/10) = 5600 := by
    simp only [rhe, hq]
    rw [if_neg (by norm_num), if_pos (by norm_num)]
    decide
  have hr2 : round2 ((55999 : ℚ)/1000) = 56 := by
    rw [round2, show (100 : ℚ) * ((55999 : ℚ)/1000) = (55999 : ℚ)/10 by norm_num, hrhe]
    norm_num
  constructor
  · simp [Scorer1.score_listing, hrf, hsf]
  · simp only [Scorer1.score_listing, hrf, hsf, Bool.false_eq_true, if_false]
    rw [hrem, hai, hsen, hsal, hfin]
    rw [round2_eq_self_int (100 : ℚ) 100 (by norm_num),
      round2_eq_self_int (0 : ℚ) 0 (by norm_num),
      round2_eq_self_int (90 : ℚ) 90 (by norm_num),
      round2_eq_self_int (60 : ℚ) 60 (by norm_num)]
    rw [show (100 : ℚ) * fourDecimalCfg.weights.remote_match +
      (0 : ℚ) * fourDecimalCfg.weights.ai_ml_relevance +
      (90 : ℚ) * fourDecimalCfg.weights.seniority_match +
      (60 : ℚ) * fourDecimalCfg.weights.salary_match +
      (0 : ℚ) * fourDecimalCfg.weights.fintech_bonus = (55999 : ℚ)/1000 by
        simp only [fourDecimalCfg]; norm_num]
    rw [hr2]
    norm_num

/-- C6 (amended): for every non-rejected listing, in both engines, the
published total equals the sum over the five dimensions of (published
sub-score × configured weight) rounded to two decimal places; with the
default weight vectors every product has at most two decimals, so the
unrounded equality the claim states holds there. -/
theorem c6_total_eq_rounded_weighted_sum :
    (∀ (cfg : Scorer1.ScoringConfig) (p : Listing),
      (Scorer1.score_listing cfg p).rejected = false →
      (Scorer1.score_listing cfg p).score = round2 (
        (Scorer1.score_listing cfg p).breakdown.remote_match * cfg.weights.remote_match +
        (Scorer1.score_listing cfg p).breakdown.ai_ml_relevance * cfg.weights.ai_ml_relevance +
        (Scorer1.score_listing cfg p).breakdown.seniority_match * cfg.weights.seniority_match +
        (Scorer1.score_listing cfg p).breakdown.salary_match * cfg.weights.salary_match +
        (Scorer1.score_listing cfg p).breakdown.fintech_bonus * cfg.weights.fintech_bonus)) ∧
    (∀ (w : Scorer2.ScoringWeights) (fl : Option ℚ) (p : Listing),
      (Scorer2.score_listing w fl p).rejected = false →
      (Scorer2.score_listing w fl p).score = round2 (
        (Scorer2.score_listing w fl p).breakdown.remote_match * w.remote_match +
        (Scorer2.score_listing w fl p).breakdown.ai_ml_relevance * w.ai_ml_relevance +
        (Scorer2.score_listing w fl p).breakdown.seniority_match * w.seniority_match +
        (Scorer2.score_listing w fl p).breakdown.salary_match * w.salary_match +
        (Scorer2.score_listing w fl p).breakdown.fintech_bonus * w.fintech_bonus)) := by
  constructor
  · intro cfg p h
    by_cases h1 : Scorer1.remoteFilterFires cfg p
    · simp [Scorer1.score_listing, h1] at h
    · by_cases h2 : Scorer1.salaryFloorFires cfg p
      · simp [Scorer1.score_listing, h1, h2] at h
      · simp only [Scorer1.score_listing, h1, h2, Bool.false_eq_true, if_false]
        rw [round2_score_remote1, round2_score_ai1, round2_score_seniority1,
          round2_score_salary1, round2_score_fintech1]
  · intro w fl p h
    by_cases h1 : (Scorer2.apply_hard_filters fl p).1
    · simp [Scorer2.score_listing, h1] at h
    · simp only [Scorer2.score_listing, h1, Bool.false_eq_true, if_false]

/-- C6 (witness): both engines, on a plain remote listing with default
configuration, satisfy the rounded weighted-sum equation. -/
theorem c6_witness :
    ((Scorer1.score_listing {} plainRemoteListing).rejected = false ∧
     (Scorer1.score_listing {} plainRemoteListing).score = round2 (
       (Scorer1.score_listing {} plainRemoteListing).breakdown.remote_match *
         ({} : Scorer1.ScoringConfig).weights.remote_match +
       (Scorer1.score_listing {} plainRemoteListing).breakdown.ai_ml_relevance *
         ({} : Scorer1.ScoringConfig).weights.ai_ml_relevance +
       (Scorer1.score_listing {} plainRemoteListing).breakdown.seniority_match *
         ({} : Scorer1.ScoringConfig).weights.seniority_match +
       (Scorer1.score_listing {} plainRemoteListing).breakdown.salary_match *
         ({} : Scorer1.ScoringConfig).weights.salary_match +
       (Scorer1.score_listing {} plainRemoteListing).breakdown.fintech_bonus *
         ({} : Scorer1.ScoringConfig).weights.fintech_bonus)) ∧
    ((Scorer2.score_listing {} (some 100000) plainRemoteListing).rejected = false ∧
     (Scorer2.score_listing {} (some 100000) plainRemoteListing).score = round2 (
       (Scorer2.score_listing {} (some 100000) plainRemoteListing).breakdown.remote_match *
         ({} : Scorer2.ScoringWeights).remote_match +
       (Scorer2.score_listing {} (some 100000) plainRemoteListing).breakdown.ai_ml_relevance *
         ({} : Scorer2.ScoringWeights).ai_ml_relevance +
       (Scorer2.score_listing {} (some 100000) plainRemoteListing).breakdown.seniority_match *
         ({} : Scorer2.ScoringWeights).seniority_match +
       (Scorer2.score_listing {} (some 100000) plainRemoteListing).breakdown.salary_match *
         ({} : Scorer2.ScoringWeights).salary_match +
       (Scorer2.score_listing {} (some 100000) plainRemoteListing).breakdown.fintech_bonus *
         ({} : Scorer2.ScoringWeights).fintech_bonus)) :=
  ⟨⟨by decide, c6_total_eq_rounded_weighted_sum.1 {} plainRemoteListing (by decide)⟩,
   ⟨by decide, c6_total_eq_rounded_weighted_sum.2 {} (some 100000) plainRemoteListing (by decide)⟩⟩

/-- C7 (counterexample): the default weight vector of
`src/discovery/scorer/scorer.py` (0.35/0.30/0.20/0.10/0.05) passes
`validate_sum` — the five weights including the bonus sum to 1.0 — while
the four primary weights alone sum to 0.95, outside the 0.01 tolerance,
so the claim's "primary weights only, excluding the bonus" reading of the
check is false. -/
theorem c7_counterexample :
    Scorer2.validate_sum {} = true ∧ Scorer2.validateSumPrimarySpec {} = false := by
  constructor
  · simp only [Scorer2.validate_sum, decide_eq_true_eq]
    norm_num
  · simp only [Scorer2.validateSumPrimarySpec, decide_eq_false_iff_not, abs_sub_lt_iff]
    push_neg
    norm_num

/-- C7 (amended): `ScoringWeights.validate_sum` returns true exactly when
all five dimension weights — the bonus weight included, despite its
docstring saying "excluding bonus" — sum to 1.0 within the 0.01
tolerance. -/
theorem c7_validate_sum_includes_bonus :
    ∀ w : Scorer2.ScoringWeights,
      Scorer2.validate_sum w = true ↔
        |w.remote_match + w.ai_ml_relevance + w.seniority_match + w.salary_match +
          w.fintech_bonus - 1| < 1/100 := by
  intro w
  simp [Scorer2.validate_sum, decide_eq_true_eq]

/-- C8: a listing with no salary data never trips the salary-floor hard
filter of `src/discovery/scorer.py` (if it is rejected at all, the reason
is the remote filter), and when scored its published salary sub-score is
the neutral 60, strictly between 0 and 100. -/
theorem c8_missing_salary_neutral :
    ∀ (cfg : Scorer1.ScoringConfig) (p : Listing),
      p.salary_range = none →
      Scorer1.salaryFloorFires cfg p = false ∧
      ((Scorer1.score_listing cfg p).rejected = true →
        (Scorer1.score_listing cfg p).rejection_reason = some (str (r"Not remote"))) ∧
      ((Scorer1.score_listing cfg p).rejected = false →
        (Scorer1.score_listing cfg p).breakdown.salary_match = 60 ∧
        0 < (Scorer1.score_listing cfg p).breakdown.salary_match ∧
        (Scorer1.score_listing cfg p).breakdown.salary_match < 100) := by
  intro cfg p hnone
  have hsf : Scorer1.salaryFloorFires cfg p = false := by
    cases cfg.salary_floor_eur <;> simp [Scorer1.salaryFloorFires, hnone]
  refine ⟨hsf, ?_, ?_⟩
  · intro h
    by_cases h1 : Scorer1.remoteFilterFires cfg p
    · simp [Scorer1.score_listing, h1]
    · simp [Scorer1.score_listing, h1, hsf] at h
  · intro h
    by_cases h1 : Scorer1.remoteFilterFires cfg p
    · simp [Scorer1.score_listing, h1] at h
    · have hsal : Scorer1.score_salary p = 60 := by
        simp [Scorer1.score_salary, hnone]
      have h60 : round2 (Scorer1.score_salary p) = 60 := by
        rw [hsal]
        exact round2_eq_self_int _ 60 (by norm_num)
      simp only [Scorer1.score_listing, h1, hsf, Bool.false_eq_true, if_false]
      refine ⟨h60, ?_, ?_⟩ <;> rw [h60] <;> norm_num

/-- C8 (witness): the plain remote listing has no salary data; it is not
rejected and its salary sub-score is the neutral 60. -/
theorem c8_witness :
    plainRemoteListing.salary_range = none ∧
    (Scorer1.salaryFloorFires {} plainRemoteListing = false ∧
     ((Scorer1.score_listing {} plainRemoteListing).rejected = true →
       (Scorer1.score_listing {} plainRemoteListing).rejection_reason =
         some (str (r"Not remote"))) ∧
     ((Scorer1.score_listing {} plainRemoteListing).rejected = false →
       (Scorer1.score_listing {} plainRemoteListing).breakdown.salary_match = 60 ∧
       0 < (Scorer1.score_listing {} plainRemoteListing).breakdown.salary_match ∧
       (Scorer1.score_listing {} plainRemoteListing).breakdown.salary_match < 100)) :=
  ⟨rfl, c8_missing_salary_neutral {} plainRemoteListing rfl⟩

/-- C9: `OpportunityQualifier.qualify` returns `None` exactly when the
payload's verdict is not `"accept"` or its score is strictly below the
threshold; in particular a score equal to the threshold qualifies, and in
every other case an `ApplicationCandidate` is returned. -/
theorem c9_qualify_none_iff :
    ∀ (th : ℚ) (ev : Qualifier.QEvent),
      Qualifier.qualify th ev = none ↔
        (ev.payload.verdict ≠ some (str (r"accept")) ∨ ev.payload.score < th) := by
  intro th ev
  unfold Qualifier.qualify
  by_cases h1 : ev.payload.verdict ≠ some (str (r"accept"))
  · simp [h1]
  · by_cases h2 : ev.payload.score < th
    · simp [h1, h2]
    · simp [h1, h2]

/-- C10: within one scan run, every dedup key newly marked as seen by the
persisted seen-set write has its discovery event contained in an
event-file write that occurs strictly earlier in the run's sequence of
durable writes. -/
theorem c10_events_written_before_seen :
    ∀ (seen : List Str) (fetched : List Listing) (i : ℕ) (keys : List Str) (k : Str),
      (Scanner.scanTrace seen fetched).get? i =
        some (Scanner.Effect.saveSeen keys) →
      k ∈ keys → k ∉ seen →
      ∃ j evs, j < i ∧
        (Scanner.scanTrace seen fetched).get? j =
          some (Scanner.Effect.publishEvents evs) ∧
        ∃ e, e ∈ evs ∧ Scanner.dedupKey e = k := by
  intro seen fetched i keys k hsave hk hknot
  by_cases hempty : (Scanner.scan seen fetched).events.isEmpty
  · exfalso
    have hev : (Scanner.scan seen fetched).events = [] := by simpa using hempty
    have htr : Scanner.scanTrace seen fetched =
        [Scanner.Effect.saveSeen (Scanner.scan seen fetched).seenAfter] := by
      simp [Scanner.scanTrace, hempty]
    rw [htr] at hsave
    match i, hsave with
    | 0, h =>
      have hkeys : keys = (Scanner.scan seen fetched).seenAfter := by
        simpa using h.symm
      rw [hkeys, Scanner.scan_seenAfter_def, hev] at hk
      simp at hk
      exact hknot hk
  · have htr : Scanner.scanTrace seen fetched =
        [Scanner.Effect.publishEvents (Scanner.scan seen fetched).events,
         Scanner.Effect.saveSeen (Scanner.scan seen fetched).seenAfter] := by
      simp [Scanner.scanTrace, hempty]
    rw [htr] at hsave
    match i, hsave with
    | 1, h =>
      have hkeys : keys = (Scanner.scan seen fetched).seenAfter := by
        simpa using h.symm
      rw [hkeys, Scanner.scan_seenAfter_def, List.mem_append] at hk
      rcases hk with hk | hk
      · exact absurd hk hknot
      · obtain ⟨e, he, hek⟩ := List.mem_map.mp hk
        exact ⟨0, (Scanner.scan seen fetched).events, Nat.zero_lt_one,
          by rw [htr]; rfl, e, he, hek⟩

/-- C10 (witness): scanning `[listingA]` from an empty seen-set writes
the event file at position 0 and the seen-set at position 1; the newly
seen key's event is published before the seen-set write. -/
theorem c10_witness :
    (Scanner.scanTrace [] [listingA]).get? 1 =
      some (Scanner.Effect.saveSeen (Scanner.scan [] [listingA]).seenAfter) ∧
    keyA ∈ (Scanner.scan [] [listingA]).seenAfter ∧
    keyA ∉ ([] : List Str) ∧
    (∃ j evs, j < 1 ∧
      (Scanner.scanTrace [] [listingA]).get? j =
        some (Scanner.Effect.publishEvents evs) ∧
      ∃ e, e ∈ evs ∧ Scanner.dedupKey e = keyA) :=
  ⟨by decide, by decide, by decide,
   c10_events_written_before_seen [] [listingA] 1
     (Scanner.scan [] [listingA]).seenAfter keyA (by decide) (by decide) (by decide)⟩
